import Mathlib

/-!
Shallow embedding of the native passkey (WebAuthn) bridge from
`src-tauri/src/webauthn.rs` of the sparktype repository, together with
theorems settling the specification claims about it.

Modelling conventions:
* Rust `Result<T, String>` becomes `Except String T`.
* The `cfg!(target_os = ...)` compile-time gates become an explicit
  `Platform` parameter; `cfg!(debug_assertions)` becomes a `Bool` parameter.
* The entropy source (`rand::thread_rng().fill_bytes`) is made explicit:
  the 32 random bytes an operation draws are passed in as a `List Nat`
  argument (each entry one byte).
* `SystemTime::now().duration_since(UNIX_EPOCH)...as_secs()` is made
  explicit as a `now : Nat` argument (seconds since the epoch).
* The `tokio::time::sleep` calls only delay; they do not affect the
  returned values and are dropped from the embedding.
-/

namespace Sparktype

/-- Configuration for site-specific WebAuthn authentication
(struct `SiteAuthConfig` in webauthn.rs; wire names `publicKey`,
`credentialId`, `requiresAuth`, `userDisplayName`, `registeredAt`). -/
structure SiteAuthConfig where
  public_key : String
  credential_id : String
  requires_auth : Bool
  user_display_name : Option String
  registered_at : String
deriving Repr, DecidableEq

/-- Result of a WebAuthn authentication attempt
(struct `AuthenticationResult` in webauthn.rs). -/
structure AuthenticationResult where
  success : Bool
  error : Option String
  credential_id : Option String
deriving Repr, DecidableEq

/-- Result of WebAuthn credential registration
(struct `RegistrationResult` in webauthn.rs). -/
structure RegistrationResult where
  success : Bool
  auth_config : Option SiteAuthConfig
  error : Option String
deriving Repr, DecidableEq

/-- The compile-time platform choice made by the `cfg!(target_os = ...)`
gates in webauthn.rs: macOS, iOS, or any other platform. -/
inductive Platform where
  | macos
  | ios
  | other
deriving Repr, DecidableEq

/-- Whether the platform passes the `cfg(any(target_os = "macos",
target_os = "ios"))` gate of webauthn.rs. -/
def Platform.hasNativeApi : Platform → Bool
  | .macos => true
  | .ios => true
  | .other => false

/-- The variants of the credential-provider adapter as described by the
spec (section 4.3): the platform gate and the build mode select the
variant once. Platforms failing the native-API gate get `Unsupported`;
on macOS/iOS, debug builds use the simulated-development path and
release builds the (not yet wired) `Available` path. -/
inductive AdapterVariant where
  | Available
  | SimulatedDevelopment
  | Unsupported
deriving Repr, DecidableEq

/-- Adapter-variant selection, read off the `cfg` structure of
webauthn.rs (`target_os` gates, then `cfg!(debug_assertions)`). -/
def adapter_variant (p : Platform) (debugAssertions : Bool) : AdapterVariant :=
  if p.hasNativeApi then
    if debugAssertions then .SimulatedDevelopment else .Available
  else .Unsupported

/-! ### base64 URL-safe, no-padding codec

The source encodes challenges with the `base64` crate's
`URL_SAFE_NO_PAD` engine. We embed that engine on byte lists: three
input bytes yield four sextets; a final remainder of one or two bytes
yields two or three sextets, with no padding characters. -/

/-- The URL-safe base64 alphabet used by `URL_SAFE_NO_PAD`. -/
def b64Alphabet : List Char :=
  "ABCDEFGHIJKLMNOPQRSTUVWXYZabcdefghijklmnopqrstuvwxyz0123456789-_".data

/-- Character for a sextet value (0..63). -/
def b64Char (v : Nat) : Char :=
  b64Alphabet.getD v 'A'

/-- Sextet value of an alphabet character; `none` on characters outside
the URL-safe alphabet. -/
def b64Val (c : Char) : Option Nat :=
  let n := c.toNat
  if 65 ≤ n ∧ n ≤ 90 then some (n - 65)
  else if 97 ≤ n ∧ n ≤ 122 then some (n - 97 + 26)
  else if 48 ≤ n ∧ n ≤ 57 then some (n - 48 + 52)
  else if n = 45 then some 62
  else if n = 95 then some 63
  else none

/-- URL-safe, padding-free base64 encoding of a byte list. -/
def b64EncodeBytes : List Nat → List Char
  | [] => []
  | [b1] => [b64Char (b1 / 4), b64Char (b1 % 4 * 16)]
  | [b1, b2] =>
      [b64Char (b1 / 4), b64Char (b1 % 4 * 16 + b2 / 16), b64Char (b2 % 16 * 4)]
  | b1 :: b2 :: b3 :: rest =>
      b64Char (b1 / 4) :: b64Char (b1 % 4 * 16 + b2 / 16) ::
      b64Char (b2 % 16 * 4 + b3 / 64) :: b64Char (b3 % 64) :: b64EncodeBytes rest

/-- URL-safe, padding-free base64 decoding of a character list; fails on
characters outside the alphabet or on an impossible length. -/
def b64DecodeChars : List Char → Option (List Nat)
  | [] => some []
  | [_] => none
  | [c1, c2] =>
      match b64Val c1, b64Val c2 with
      | some v1, some v2 => some [v1 * 4 + v2 / 16]
      | _, _ => none
  | [c1, c2, c3] =>
      match b64Val c1, b64Val c2, b64Val c3 with
      | some v1, some v2, some v3 =>
          some [v1 * 4 + v2 / 16, v2 % 16 * 16 + v3 / 4]
      | _, _, _ => none
  | c1 :: c2 :: c3 :: c4 :: rest =>
      match b64Val c1, b64Val c2, b64Val c3, b64Val c4, b64DecodeChars rest with
      | some v1, some v2, some v3, some v4, some bs =>
          some ((v1 * 4 + v2 / 16) :: (v2 % 16 * 16 + v3 / 4) :: (v3 % 4 * 64 + v4) :: bs)
      | _, _, _, _, _ => none

/-- Embedding of `generate_challenge` from webauthn.rs: the 32 random
bytes drawn from the thread RNG are the explicit `entropy` argument;
the function base64url-encodes them without padding. -/
def generate_challenge (entropy : List Nat) : String :=
  String.mk (b64EncodeBytes entropy)

/-- Embedding of `get_editing_domain` from webauthn.rs: localhost under
`cfg!(debug_assertions)`, the configured production domain otherwise. -/
def get_editing_domain (debugAssertions : Bool) : String :=
  if debugAssertions then "localhost" else "app.sparktype.org"

/-- Embedding of the `is_webauthn_available` command from webauthn.rs:
`Ok(true)` on macOS and iOS, `Ok(false)` on every other platform. -/
def is_webauthn_available (p : Platform) : Except String Bool :=
  match p with
  | .macos => .ok true
  | .ios => .ok true
  | .other => .ok false

/-- Embedding of `authenticate_with_native_webauthn` from webauthn.rs
(the body compiled under the macOS/iOS gate). It generates a fresh
challenge (logged only), then: in debug builds it simulates success
echoing the input credential id; in release builds it returns the
framework status: failure with a descriptive error, still carrying the
input credential id. -/
def authenticate_with_native_webauthn (debugAssertions : Bool)
    (site_id : String) (auth_config : SiteAuthConfig)
    (editing_domain : String) (entropy : List Nat) :
    Except String AuthenticationResult :=
  let _challenge := generate_challenge entropy
  let _ := site_id
  let _ := editing_domain
  if debugAssertions then
    .ok { success := true, error := none,
          credential_id := some auth_config.credential_id }
  else
    .ok { success := false,
          error := some "Native WebAuthn authentication requires ASAuthorizationController integration",
          credential_id := some auth_config.credential_id }

/-- Embedding of `register_with_native_webauthn` from webauthn.rs. It
generates a fresh challenge, builds the placeholder `SiteAuthConfig`
(public key derived from the challenge, credential id derived from the
site id, `requires_auth` true, the caller's display name, and the
current Unix-seconds time as a string), then: in debug builds returns
success with that config; in release builds returns the framework
status: failure with a descriptive error, still carrying the config. -/
def register_with_native_webauthn (debugAssertions : Bool)
    (site_id site_name : String) (user_display_name : Option String)
    (editing_domain : String) (entropy : List Nat) (now : Nat) :
    Except String RegistrationResult :=
  let challenge := generate_challenge entropy
  let _ := site_name
  let _ := editing_domain
  let auth_config : SiteAuthConfig :=
    { public_key :=
        if debugAssertions then "dev_public_key_" ++ challenge
        else "placeholder_public_key_" ++ challenge
      credential_id :=
        if debugAssertions then "dev_credential_id_" ++ site_id
        else "placeholder_credential_id_" ++ site_id
      requires_auth := true
      user_display_name := user_display_name
      registered_at := Nat.repr now }
  if debugAssertions then
    .ok { success := true, auth_config := some auth_config, error := none }
  else
    .ok { success := false, auth_config := some auth_config,
          error := some "Native WebAuthn registration requires ASAuthorizationController integration" }

/-- Embedding of the `authenticate_passkey` command from webauthn.rs:
on macOS/iOS it resolves the editing domain, delegates to the native
helper and converts an `Err` into a structured failure result; on other
platforms it returns the fixed unsupported-platform result. -/
def authenticate_passkey (p : Platform) (debugAssertions : Bool)
    (entropy : List Nat) (site_id : String) (auth_config : SiteAuthConfig) :
    Except String AuthenticationResult :=
  if p.hasNativeApi then
    let editing_domain := get_editing_domain debugAssertions
    match authenticate_with_native_webauthn debugAssertions site_id auth_config
        editing_domain entropy with
    | .ok result => .ok result
    | .error e =>
        .ok { success := false, error := some e, credential_id := none }
  else
    .ok { success := false,
          error := some "WebAuthn not supported on this platform",
          credential_id := none }

/-- Embedding of the `register_passkey` command from webauthn.rs:
on macOS/iOS it resolves the editing domain, delegates to the native
helper and converts an `Err` into a structured failure result; on other
platforms it returns the fixed unsupported-platform result. -/
def register_passkey (p : Platform) (debugAssertions : Bool)
    (entropy : List Nat) (now : Nat)
    (site_id site_name : String) (user_display_name : Option String) :
    Except String RegistrationResult :=
  if p.hasNativeApi then
    let editing_domain := get_editing_domain debugAssertions
    match register_with_native_webauthn debugAssertions site_id site_name
        user_display_name editing_domain entropy now with
    | .ok result => .ok result
    | .error e =>
        .ok { success := false, auth_config := none, error := some e }
  else
    .ok { success := false, auth_config := none,
          error := some "WebAuthn not supported on this platform" }

/-- Embedding of `SystemTime::now().duration_since(UNIX_EPOCH)` from
webauthn.rs: the current instant is the explicit `clock` argument, in
seconds relative to the Unix epoch (negative when the system clock is
set before the epoch). `duration_since` returns `Err` — here `none` —
exactly when the anchor is later than the measured instant. -/
def duration_since_unix_epoch (clock : Int) : Option Nat :=
  if 0 ≤ clock then some clock.toNat else none

/-- Panic-aware embedding of `register_with_native_webauthn`: the
`.unwrap()` on `duration_since(UNIX_EPOCH)` (webauthn.rs lines 231-234)
panics when the system clock is before the Unix epoch. A panicking
execution is modelled as `none`, a completing one as `some` of the
value the earlier embedding returns for the unwrapped seconds. -/
def register_with_native_webauthn_clocked (debugAssertions : Bool)
    (site_id site_name : String) (user_display_name : Option String)
    (editing_domain : String) (entropy : List Nat) (clock : Int) :
    Option (Except String RegistrationResult) :=
  match duration_since_unix_epoch clock with
  | some secs =>
      some (register_with_native_webauthn debugAssertions site_id site_name
        user_display_name editing_domain entropy secs)
  | none => none

/-- Panic-aware embedding of the `register_passkey` command: on
macOS/iOS it delegates to the native helper, whose unwrap panic (if
any) propagates to the caller unhandled; on other platforms the fixed
unsupported result is returned and the clock is never read. -/
def register_passkey_clocked (p : Platform) (debugAssertions : Bool)
    (entropy : List Nat) (clock : Int)
    (site_id site_name : String) (user_display_name : Option String) :
    Option (Except String RegistrationResult) :=
  if p.hasNativeApi then
    match register_with_native_webauthn_clocked debugAssertions site_id
        site_name user_display_name (get_editing_domain debugAssertions)
        entropy clock with
    | some (.ok result) => some (.ok result)
    | some (.error e) =>
        some (.ok { success := false, auth_config := none,
                    error := some e })
    | none => none
  else
    some (.ok { success := false, auth_config := none,
                error := some "WebAuthn not supported on this platform" })

/-- Substring containment on strings, used to state claim C5. -/
def strContains (s sub : String) : Prop :=
  ∃ pre post : String, s = pre ++ sub ++ post

/-- The credential id inside a registration outcome, when present. -/
def regCredId (e : Except String RegistrationResult) : Option String :=
  match e with
  | .ok r => r.auth_config.map (fun c => c.credential_id)
  | .error _ => none

/-- The public key inside a registration outcome, when present. -/
def regPubKey (e : Except String RegistrationResult) : Option String :=
  match e with
  | .ok r => r.auth_config.map (fun c => c.public_key)
  | .error _ => none

/-- A sample input configuration used in concrete witnesses. -/
def sampleCfg : SiteAuthConfig :=
  { public_key := "pk", credential_id := "cred1", requires_auth := true,
    user_display_name := none, registered_at := "0" }

/-- The config produced by the concrete simulated-development
registration of site1 with all-zero entropy at time 0. -/
def devCfgSite1 : SiteAuthConfig :=
  { public_key := "dev_public_key_AAAAAAAAAAAAAAAAAAAAAAAAAAAAAAAAAAAAAAAAAAA",
    credential_id := "dev_credential_id_site1",
    requires_auth := true,
    user_display_name := some "Alice",
    registered_at := "0" }

/-- The result of the concrete simulated-development registration of
site1 with all-zero entropy at time 0. -/
def devRegSite1 : RegistrationResult :=
  { success := true, auth_config := some devCfgSite1, error := none }

/-! ### Lemmas about the base64 codec -/

/-- Decoding a character produced for a sextet value below 64 recovers
that value. -/
theorem b64Val_b64Char : ∀ v : Nat, v < 64 → b64Val (b64Char v) = some v := by
  decide

/-- Characters produced for sextet values below 64 lie in the URL-safe
alphabet. -/
theorem b64Char_mem : ∀ v : Nat, v < 64 → b64Char v ∈ b64Alphabet := by
  decide

/-- Decoding an encoded byte list recovers the bytes, for byte values
below 256. -/
theorem b64_decode_encode : ∀ l : List Nat, (∀ b ∈ l, b < 256) →
    b64DecodeChars (b64EncodeBytes l) = some l
  | [], _ => rfl
  | [b1], h => by
      have hb1 : b1 < 256 := h b1 (by simp)
      have h1 := b64Val_b64Char (b1 / 4) (by omega)
      have h2 := b64Val_b64Char (b1 % 4 * 16) (by omega)
      simp only [b64EncodeBytes, b64DecodeChars, h1, h2, Option.some.injEq,
        List.cons.injEq, and_true]
      omega
  | [b1, b2], h => by
      have hb1 : b1 < 256 := h b1 (by simp)
      have hb2 : b2 < 256 := h b2 (by simp)
      have h1 := b64Val_b64Char (b1 / 4) (by omega)
      have h2 := b64Val_b64Char (b1 % 4 * 16 + b2 / 16) (by omega)
      have h3 := b64Val_b64Char (b2 % 16 * 4) (by omega)
      simp only [b64EncodeBytes, b64DecodeChars, h1, h2, h3, Option.some.injEq,
        List.cons.injEq, and_true]
      constructor <;> omega
  | b1 :: b2 :: b3 :: rest, h => by
      have hb1 : b1 < 256 := h b1 (by simp)
      have hb2 : b2 < 256 := h b2 (by simp)
      have hb3 : b3 < 256 := h b3 (by simp)
      have ih := b64_decode_encode rest (fun b hb => h b (by simp [hb]))
      have h1 := b64Val_b64Char (b1 / 4) (by omega)
      have h2 := b64Val_b64Char (b1 % 4 * 16 + b2 / 16) (by omega)
      have h3 := b64Val_b64Char (b2 % 16 * 4 + b3 / 64) (by omega)
      have h4 := b64Val_b64Char (b3 % 64) (by omega)
      simp only [b64EncodeBytes, b64DecodeChars, h1, h2, h3, h4, ih,
        Option.some.injEq, List.cons.injEq, and_true, true_and]
      exact ⟨by omega, by omega, by omega⟩

/-- Length of the encoding: four characters per three bytes, with two
or three characters for a one- or two-byte remainder. -/
theorem b64EncodeBytes_length : ∀ l : List Nat,
    (b64EncodeBytes l).length = (l.length * 4 + 2) / 3
  | [] => rfl
  | [_] => by simp [b64EncodeBytes]
  | [_, _] => by simp [b64EncodeBytes]
  | _ :: _ :: _ :: rest => by
      simp only [b64EncodeBytes, List.length_cons,
        b64EncodeBytes_length rest]
      omega

/-- Every character of an encoding lies in the URL-safe alphabet. -/
theorem b64EncodeBytes_mem : ∀ l : List Nat, (∀ b ∈ l, b < 256) →
    ∀ c ∈ b64EncodeBytes l, c ∈ b64Alphabet
  | [], _ => by intro c hc; simp [b64EncodeBytes] at hc
  | [b1], h => by
      have hb1 : b1 < 256 := h b1 (by simp)
      intro c hc
      simp only [b64EncodeBytes, List.mem_cons, List.not_mem_nil,
        or_false] at hc
      rcases hc with rfl | rfl
      · exact b64Char_mem _ (by omega)
      · exact b64Char_mem _ (by omega)
  | [b1, b2], h => by
      have hb1 : b1 < 256 := h b1 (by simp)
      have hb2 : b2 < 256 := h b2 (by simp)
      intro c hc
      simp only [b64EncodeBytes, List.mem_cons, List.not_mem_nil,
        or_false] at hc
      rcases hc with rfl | rfl | rfl
      · exact b64Char_mem _ (by omega)
      · exact b64Char_mem _ (by omega)
      · exact b64Char_mem _ (by omega)
  | b1 :: b2 :: b3 :: rest, h => by
      have hb1 : b1 < 256 := h b1 (by simp)
      have hb2 : b2 < 256 := h b2 (by simp)
      have hb3 : b3 < 256 := h b3 (by simp)
      have ih := b64EncodeBytes_mem rest (fun b hb => h b (by simp [hb]))
      intro c hc
      simp only [b64EncodeBytes, List.mem_cons] at hc
      rcases hc with rfl | rfl | rfl | rfl | hc
      · exact b64Char_mem _ (by omega)
      · exact b64Char_mem _ (by omega)
      · exact b64Char_mem _ (by omega)
      · exact b64Char_mem _ (by omega)
      · exact ih c hc

/-- The encoding is injective on byte lists with values below 256. -/
theorem b64EncodeBytes_inj (l1 l2 : List Nat) (h1 : ∀ b ∈ l1, b < 256)
    (h2 : ∀ b ∈ l2, b < 256) (he : b64EncodeBytes l1 = b64EncodeBytes l2) :
    l1 = l2 := by
  have d1 := b64_decode_encode l1 h1
  have d2 := b64_decode_encode l2 h2
  rw [he, d2] at d1
  exact (Option.some.injEq l2 l1 ▸ d1).symm

/-- Distinct entropy draws yield distinct challenges, for byte values
below 256. -/
theorem generate_challenge_inj (l1 l2 : List Nat) (h1 : ∀ b ∈ l1, b < 256)
    (h2 : ∀ b ∈ l2, b < 256) (hne : l1 ≠ l2) :
    generate_challenge l1 ≠ generate_challenge l2 := by
  intro he
  exact hne (b64EncodeBytes_inj l1 l2 h1 h2 (congrArg String.data he))

/-- Appending to a fixed string on the left is injective. -/
theorem string_append_right_inj (s a b : String) (h : s ++ a = s ++ b) :
    a = b := by
  have hd : s.data ++ a.data = s.data ++ b.data := by
    have := congrArg String.data h
    simpa [String.data_append] using this
  exact String.ext (List.append_cancel_left hd)

example : generate_challenge (List.replicate 32 0) =
    "AAAAAAAAAAAAAAAAAAAAAAAAAAAAAAAAAAAAAAAAAAA" := by rfl

example : (generate_challenge (List.replicate 32 0)).length = 43 := by rfl

example : b64DecodeChars (b64EncodeBytes [255, 254, 0, 7]) = some [255, 254, 0, 7] := by rfl

/-! ### Claim theorems -/

/-- C2 fails on the code (code bug): on macOS, with the system clock
one second before the Unix epoch, `register_passkey` panics at the
`duration_since(UNIX_EPOCH).unwrap()` of webauthn.rs lines 231-234
(modelled as `none`) instead of producing a structured result — an
unhandled fault reaching the caller. The same call with the clock at
the epoch completes normally with the structured success result. -/
theorem c2_register_panics_before_epoch :
    register_passkey_clocked .macos true (List.replicate 32 0) (-1)
      "site1" "MySite" (some "Alice") = none ∧
    register_passkey_clocked .macos true (List.replicate 32 0) 0
      "site1" "MySite" (some "Alice") =
      some (.ok { success := true, auth_config := some devCfgSite1,
                  error := none }) :=
  ⟨rfl, rfl⟩

/-- C3: on every platform and build mode, neither `authenticate_passkey`
nor `register_passkey` ever returns a result with `success = true` and a
non-null error, nor one with `success = false` and a null error. -/
theorem c3_success_error_exclusive (p : Platform) (d : Bool)
    (entropy : List Nat) (now : Nat) (site_id site_name : String)
    (udn : Option String) (cfg : SiteAuthConfig) :
    (∀ r, authenticate_passkey p d entropy site_id cfg = .ok r →
      (r.success = true → r.error = none) ∧
      (r.success = false → r.error ≠ none)) ∧
    (∀ r, register_passkey p d entropy now site_id site_name udn = .ok r →
      (r.success = true → r.error = none) ∧
      (r.success = false → r.error ≠ none)) := by
  constructor <;> intro r hr <;> cases p <;> cases d <;>
    simp [authenticate_passkey, register_passkey,
      authenticate_with_native_webauthn, register_with_native_webauthn,
      Platform.hasNativeApi] at hr <;>
    subst hr <;> simp

/-- Witness for C3 at a concrete call on an unsupported platform. -/
theorem c3_witness :
    (({ success := false,
        error := some "WebAuthn not supported on this platform",
        credential_id := none } : AuthenticationResult).success = true →
      ({ success := false,
         error := some "WebAuthn not supported on this platform",
         credential_id := none } : AuthenticationResult).error = none) ∧
    (({ success := false,
        error := some "WebAuthn not supported on this platform",
        credential_id := none } : AuthenticationResult).success = false →
      ({ success := false,
         error := some "WebAuthn not supported on this platform",
         credential_id := none } : AuthenticationResult).error ≠ none) :=
  (c3_success_error_exclusive .other false [] 0 "site1" "MySite" none
    sampleCfg).1 _ rfl

/-- C4: on a platform whose adapter variant is `Unsupported`, for all
arguments, `authenticate_passkey` returns exactly the fixed
unsupported-platform authentication failure and `register_passkey`
returns exactly the fixed unsupported-platform registration failure. -/
theorem c4_unsupported_fixed_results (p : Platform) (d : Bool)
    (entropy : List Nat) (now : Nat) (site_id site_name : String)
    (udn : Option String) (cfg : SiteAuthConfig)
    (h : adapter_variant p d = .Unsupported) :
    authenticate_passkey p d entropy site_id cfg =
      .ok { success := false,
            error := some "WebAuthn not supported on this platform",
            credential_id := none } ∧
    register_passkey p d entropy now site_id site_name udn =
      .ok { success := false, auth_config := none,
            error := some "WebAuthn not supported on this platform" } := by
  cases p <;> cases d <;>
    simp [adapter_variant, Platform.hasNativeApi] at h <;>
    exact ⟨rfl, rfl⟩

/-- Witness for C4 on the non-macOS/iOS platform. -/
theorem c4_witness :
    adapter_variant .other false = .Unsupported ∧
    (authenticate_passkey .other false [] "site1" sampleCfg =
      .ok { success := false,
            error := some "WebAuthn not supported on this platform",
            credential_id := none } ∧
    register_passkey .other false [] 0 "site1" "MySite" none =
      .ok { success := false, auth_config := none,
            error := some "WebAuthn not supported on this platform" }) :=
  ⟨rfl, c4_unsupported_fixed_results .other false [] 0 "site1" "MySite" none
    sampleCfg rfl⟩

/-- C7: the domain resolver is a pure function of the build mode with
exactly two possible outputs: localhost in development mode and the
fixed production domain otherwise. -/
theorem c7_domain_resolver_pure :
    get_editing_domain true = "localhost" ∧
    get_editing_domain false = "app.sparktype.org" ∧
    ∀ b : Bool, get_editing_domain b = "localhost" ∨
      get_editing_domain b = "app.sparktype.org" := by
  refine ⟨rfl, rfl, ?_⟩
  intro b
  cases b
  · exact Or.inr rfl
  · exact Or.inl rfl

/-- C9: for a given platform and build mode, `is_webauthn_available`
returns one fixed boolean (the embedding is a pure function of the
platform, so repeated calls agree), and that boolean is false exactly
when the selected adapter variant is `Unsupported`. -/
theorem c9_availability_matches_variant (p : Platform) (d : Bool) :
    is_webauthn_available p = .ok p.hasNativeApi ∧
    (p.hasNativeApi = false ↔ adapter_variant p d = .Unsupported) := by
  cases p <;> cases d <;>
    simp [is_webauthn_available, Platform.hasNativeApi, adapter_variant]

/-- C10: whenever `register_passkey` produces a `SiteAuthConfig`, that
config has `requires_auth` set to true and `user_display_name` exactly
equal to the display-name argument passed by the caller. -/
theorem c10_config_fields (p : Platform) (d : Bool) (entropy : List Nat)
    (now : Nat) (site_id site_name : String) (udn : Option String)
    (r : RegistrationResult) (cfg : SiteAuthConfig)
    (h1 : register_passkey p d entropy now site_id site_name udn = .ok r)
    (h2 : r.auth_config = some cfg) :
    cfg.requires_auth = true ∧ cfg.user_display_name = udn := by
  cases p <;> cases d <;>
    simp [register_passkey, register_with_native_webauthn,
      Platform.hasNativeApi] at h1 <;>
    subst h1 <;> simp at h2 <;> subst h2 <;> simp

/-- Witness for C10 at a concrete simulated-development registration. -/
theorem c10_witness :
    ({ public_key := "dev_public_key_",
       credential_id := "dev_credential_id_site1",
       requires_auth := true,
       user_display_name := some "Alice",
       registered_at := "0" } : SiteAuthConfig).requires_auth = true ∧
    ({ public_key := "dev_public_key_",
       credential_id := "dev_credential_id_site1",
       requires_auth := true,
       user_display_name := some "Alice",
       registered_at := "0" } : SiteAuthConfig).user_display_name =
      some "Alice" :=
  c10_config_fields .macos true [] 0 "site1" "MySite" (some "Alice")
    { success := true,
      auth_config := some
        { public_key := "dev_public_key_",
          credential_id := "dev_credential_id_site1",
          requires_auth := true,
          user_display_name := some "Alice",
          registered_at := "0" },
      error := none }
    { public_key := "dev_public_key_",
      credential_id := "dev_credential_id_site1",
      requires_auth := true,
      user_display_name := some "Alice",
      registered_at := "0" }
    rfl rfl

/-- C1 counterexample: on macOS in a release build (the not-yet-wired
native-integration path), `authenticate_passkey` returns a result with
`success = false` yet a non-None credential id, and `register_passkey`
returns `success = false` yet a non-None auth config — refuting the
claim that every `success = false` result carries `credentialId = None`
and `authConfig = None`. -/
theorem c1_counterexample :
    authenticate_passkey .macos false [] "site1" sampleCfg =
      .ok { success := false,
            error := some "Native WebAuthn authentication requires ASAuthorizationController integration",
            credential_id := some "cred1" } ∧
    register_passkey .macos false [] 0 "site1" "MySite" none =
      .ok { success := false,
            auth_config := some
              { public_key := "placeholder_public_key_",
                credential_id := "placeholder_credential_id_site1",
                requires_auth := true,
                user_display_name := none,
                registered_at := "0" },
            error := some "Native WebAuthn registration requires ASAuthorizationController integration" } :=
  ⟨rfl, rfl⟩

/-- C1 (amended): every `success = false` result carries
`credentialId = None` (resp. `authConfig = None`), except on the
not-yet-wired native-integration path (macOS/iOS release build), where
`authenticate_passkey` echoes the input credential id and
`register_passkey` carries the placeholder config. -/
theorem c1_amended_none_on_failure (p : Platform) (d : Bool)
    (entropy : List Nat) (now : Nat) (site_id site_name : String)
    (udn : Option String) (cfg : SiteAuthConfig)
    (r1 : AuthenticationResult) (r2 : RegistrationResult)
    (h1 : authenticate_passkey p d entropy site_id cfg = .ok r1)
    (h2 : register_passkey p d entropy now site_id site_name udn = .ok r2)
    (hf1 : r1.success = false) (hf2 : r2.success = false) :
    (r1.credential_id = none ∨
      (p.hasNativeApi = true ∧ d = false ∧
        r1.credential_id = some cfg.credential_id)) ∧
    (r2.auth_config = none ∨
      (p.hasNativeApi = true ∧ d = false ∧ r2.auth_config ≠ none)) := by
  cases p <;> cases d <;>
    simp [authenticate_passkey, register_passkey,
      authenticate_with_native_webauthn, register_with_native_webauthn,
      Platform.hasNativeApi] at h1 h2 <;>
    subst h1 <;> subst h2 <;> simp_all [Platform.hasNativeApi]

/-- Witness for the amended C1 on the macOS release-build path. -/
theorem c1_amended_witness :
    (({ success := false,
        error := some "Native WebAuthn authentication requires ASAuthorizationController integration",
        credential_id := some "cred1" } : AuthenticationResult).credential_id =
          none ∨
      (Platform.macos.hasNativeApi = true ∧ false = false ∧
        ({ success := false,
           error := some "Native WebAuthn authentication requires ASAuthorizationController integration",
           credential_id := some "cred1" } : AuthenticationResult).credential_id =
          some sampleCfg.credential_id)) ∧
    (({ success := false,
        auth_config := some
          { public_key := "placeholder_public_key_",
            credential_id := "placeholder_credential_id_site1",
            requires_auth := true,
            user_display_name := none,
            registered_at := "0" },
        error := some "Native WebAuthn registration requires ASAuthorizationController integration" } :
          RegistrationResult).auth_config = none ∨
      (Platform.macos.hasNativeApi = true ∧ false = false ∧
        ({ success := false,
           auth_config := some
             { public_key := "placeholder_public_key_",
               credential_id := "placeholder_credential_id_site1",
               requires_auth := true,
               user_display_name := none,
               registered_at := "0" },
           error := some "Native WebAuthn registration requires ASAuthorizationController integration" } :
             RegistrationResult).auth_config ≠ none)) :=
  c1_amended_none_on_failure .macos false [] 0 "site1" "MySite" none sampleCfg
    { success := false,
      error := some "Native WebAuthn authentication requires ASAuthorizationController integration",
      credential_id := some "cred1" }
    { success := false,
      auth_config := some
        { public_key := "placeholder_public_key_",
          credential_id := "placeholder_credential_id_site1",
          requires_auth := true,
          user_display_name := none,
          registered_at := "0" },
      error := some "Native WebAuthn registration requires ASAuthorizationController integration" }
    rfl rfl rfl rfl

/-- C5: in simulated-development mode (macOS debug build), registering
site1 with name MySite and display name Alice succeeds with a config
whose credential id contains the substring site1 and whose registration
time is a decimal Unix-seconds string, and a subsequent authenticate for
site1 with that config succeeds echoing that same credential id. -/
theorem c5_simulated_register_then_authenticate (entropy entropy2 : List Nat)
    (now : Nat) (r : RegistrationResult)
    (h : register_passkey .macos true entropy now "site1" "MySite"
      (some "Alice") = .ok r) :
    r.success = true ∧
    ∃ cfg, r.auth_config = some cfg ∧
      strContains cfg.credential_id "site1" ∧
      (∃ n : Nat, cfg.registered_at = Nat.repr n) ∧
      ∃ r2, authenticate_passkey .macos true entropy2 "site1" cfg = .ok r2 ∧
        r2.success = true ∧ r2.credential_id = some cfg.credential_id := by
  simp only [register_passkey, register_with_native_webauthn,
    Platform.hasNativeApi, get_editing_domain, if_true,
    Except.ok.injEq] at h
  subst h
  exact ⟨rfl, _, rfl, ⟨"dev_credential_id_", "", rfl⟩, ⟨now, rfl⟩,
    _, rfl, rfl, rfl⟩

/-- Witness for C5 at concrete entropy and time. -/
theorem c5_witness :
    devRegSite1.success = true ∧
    ∃ cfg, devRegSite1.auth_config = some cfg ∧
      strContains cfg.credential_id "site1" ∧
      (∃ n : Nat, cfg.registered_at = Nat.repr n) ∧
      ∃ r2, authenticate_passkey .macos true [] "site1" cfg = .ok r2 ∧
        r2.success = true ∧ r2.credential_id = some cfg.credential_id :=
  c5_simulated_register_then_authenticate (List.replicate 32 0) [] 0
    devRegSite1 rfl

/-- C6: a generated challenge for 32 bytes of entropy is a 43-character
string over the URL-safe padding-free base64 alphabet, and decoding it
recovers the 32 bytes exactly. -/
theorem c6_challenge_encoding (entropy : List Nat)
    (hlen : entropy.length = 32) (hval : ∀ b ∈ entropy, b < 256) :
    (generate_challenge entropy).length = 43 ∧
    (∀ c ∈ (generate_challenge entropy).data, c ∈ b64Alphabet) ∧
    b64DecodeChars (generate_challenge entropy).data = some entropy := by
  refine ⟨?_, ?_, ?_⟩
  · show (String.mk (b64EncodeBytes entropy)).length = 43
    rw [String.length_mk, b64EncodeBytes_length, hlen]
  · show ∀ c ∈ b64EncodeBytes entropy, c ∈ b64Alphabet
    exact b64EncodeBytes_mem entropy hval
  · show b64DecodeChars (b64EncodeBytes entropy) = some entropy
    exact b64_decode_encode entropy hval

/-- Witness for C6 on the all-zero 32-byte entropy draw. -/
theorem c6_witness :
    (List.replicate 32 0).length = 32 ∧
    (∀ b ∈ List.replicate 32 0, b < 256) ∧
    ((generate_challenge (List.replicate 32 0)).length = 43 ∧
      (∀ c ∈ (generate_challenge (List.replicate 32 0)).data,
        c ∈ b64Alphabet) ∧
      b64DecodeChars (generate_challenge (List.replicate 32 0)).data =
        some (List.replicate 32 0)) :=
  ⟨by decide, by decide,
    c6_challenge_encoding (List.replicate 32 0) (by decide) (by decide)⟩

/-- C8 counterexample: two simulated-development registrations for the
same site with distinct fresh challenges produce the SAME credential id
(it is derived from the site id alone), refuting the claim that both
the public key and the credential id differ between the two calls. -/
theorem c8_counterexample :
    generate_challenge (List.replicate 32 0) ≠
      generate_challenge (List.replicate 32 1) ∧
    regCredId (register_passkey .macos true (List.replicate 32 0) 0
      "site1" "MySite" none) = some "dev_credential_id_site1" ∧
    regCredId (register_passkey .macos true (List.replicate 32 1) 0
      "site1" "MySite" none) = some "dev_credential_id_site1" := by
  refine ⟨by decide, rfl, rfl⟩

/-- C8 (amended): between two simulated-development registrations for
the same site with distinct entropy draws, the public keys differ (they
are derived from the fresh challenge) but the credential ids coincide
(they are derived from the site id alone). -/
theorem c8_amended_publickey_fresh (e1 e2 : List Nat) (now1 now2 : Nat)
    (site_id site_name : String) (u1 u2 : Option String)
    (hv1 : ∀ b ∈ e1, b < 256) (hv2 : ∀ b ∈ e2, b < 256) (hne : e1 ≠ e2) :
    regPubKey (register_passkey .macos true e1 now1 site_id site_name u1) ≠
      regPubKey (register_passkey .macos true e2 now2 site_id site_name u2) ∧
    regCredId (register_passkey .macos true e1 now1 site_id site_name u1) =
      regCredId (register_passkey .macos true e2 now2 site_id site_name u2) := by
  constructor
  · intro he
    simp [regPubKey, register_passkey, register_with_native_webauthn,
      Platform.hasNativeApi] at he
    exact generate_challenge_inj e1 e2 hv1 hv2 hne
      (string_append_right_inj _ _ _ he)
  · simp [regCredId, register_passkey, register_with_native_webauthn,
      Platform.hasNativeApi]

/-- Witness for the amended C8 on two concrete entropy draws. -/
theorem c8_amended_witness :
    (∀ b ∈ List.replicate 32 0, b < 256) ∧
    (∀ b ∈ List.replicate 32 1, b < 256) ∧
    List.replicate 32 0 ≠ List.replicate 32 1 ∧
    (regPubKey (register_passkey .macos true (List.replicate 32 0) 0
        "site1" "MySite" none) ≠
      regPubKey (register_passkey .macos true (List.replicate 32 1) 0
        "site1" "MySite" none) ∧
    regCredId (register_passkey .macos true (List.replicate 32 0) 0
        "site1" "MySite" none) =
      regCredId (register_passkey .macos true (List.replicate 32 1) 0
        "site1" "MySite" none)) :=
  ⟨by decide, by decide, by decide,
    c8_amended_publickey_fresh (List.replicate 32 0) (List.replicate 32 1)
      0 0 "site1" "MySite" none none (by decide) (by decide) (by decide)⟩

end Sparktype
